import Mathlib

/-!
# CLARIX credibility pipeline — verification development

A shallow embedding of the CLARIX server's analysis orchestration core
(`credibility.service.js`, `content-parser.service.js`, `config/index.js`)
together with theorems checking the natural-language specification against it.

Conventions:
* JavaScript numbers are modelled as exact rationals (`ℚ`); the numeric
  literals `0.7`, `0.3`, `0.5` of the source are the exact rationals
  `7/10`, `3/10`, `1/2`.
* `Math.round` is modelled as `⌊x + 1/2⌋` (its exact semantics on numbers).
* Strings are modelled by Lean `String`; `substring`/`includes`/`toLowerCase`
  act on characters (the inputs exercised here are ASCII, where JavaScript's
  UTF-16 code-unit indexing agrees with character indexing).
* Fallible effects (database, network) are modelled with `Except`/`Option`
  environments passed explicitly to the orchestration functions.
-/

namespace Clarix

/-! ## String helpers (JavaScript primitives used by the source) -/

/-- `String.prototype.toLowerCase` (ASCII range, as exercised by the source). -/
def strToLower (s : String) : String :=
  ⟨s.toList.map Char.toLower⟩

/-- `String.prototype.toUpperCase` (ASCII range, as exercised by the source). -/
def strToUpper (s : String) : String :=
  ⟨s.toList.map Char.toUpper⟩

/-- Does `needle` occur as a contiguous run inside `hay`? -/
def isSubstring (needle : List Char) : List Char → Bool
  | [] => needle.isEmpty
  | c :: rest => needle.isPrefixOf (c :: rest) || isSubstring needle rest

/-- `hay.includes(needle)` from JavaScript. -/
def jsIncludes (hay needle : String) : Bool :=
  isSubstring needle.toList hay.toList

/-- `str.substring(0, n)` from JavaScript (character-level). -/
def jsTake (s : String) (n : Nat) : String :=
  ⟨s.toList.take n⟩

/-- `s.startsWith(p)` from JavaScript. -/
def jsStartsWith (s p : String) : Bool :=
  p.toList.isPrefixOf s.toList

/-- `s.endsWith(p)` from JavaScript. -/
def jsEndsWith (s p : String) : Bool :=
  p.toList.reverse.isPrefixOf s.toList.reverse

/-- Whitespace class of JavaScript's `\s` (the members occurring in practice:
space, tab, line feed, carriage return, vertical tab, form feed). -/
def isWs (c : Char) : Bool :=
  c.toNat = 32 || c.toNat = 9 || c.toNat = 10 || c.toNat = 13 ||
    c.toNat = 11 || c.toNat = 12

/-- `text.replace(/\s+/g, ' ')`: collapse each maximal whitespace run into a
single space. -/
def collapseWs : List Char → List Char
  | [] => []
  | [c] => if isWs c then [' '] else [c]
  | c1 :: c2 :: rest =>
    if isWs c1 then
      if isWs c2 then collapseWs (c2 :: rest)
      else ' ' :: collapseWs (c2 :: rest)
    else c1 :: collapseWs (c2 :: rest)

/-- `String.prototype.trim`: strip leading and trailing whitespace. -/
def jsTrim (l : List Char) : List Char :=
  ((l.dropWhile (isWs ·)).reverse.dropWhile (isWs ·)).reverse

/-- The text cleanup of the source
(`.replace(/\s+/g, ' ').replace(/\n\s*\n/g, '\n').trim()`).
The second `replace` is the identity here: after the first replace the string
contains no newline, so the pattern cannot match; it is therefore omitted. -/
def cleanText (text : String) : String :=
  ⟨jsTrim (collapseWs text.toList)⟩

/-! ## SHA-256 (`crypto.createHash('sha256')` of Node.js)

Executable FIPS 180-4 SHA-256 over byte lists, producing the lowercase hex
digest exactly as `.digest('hex')` does. All word arithmetic is `Nat`
taken modulo `2^32`. -/

/-- `2^32`, the word modulus. -/
def M32 : Nat := 4294967296

/-- Addition modulo `2^32`. -/
def add32 (a b : Nat) : Nat := (a + b) % M32

/-- Right rotation of a 32-bit word by `n`. -/
def rotr32 (n x : Nat) : Nat :=
  ((x >>> n) ||| (x <<< (32 - n))) % M32

/-- Bitwise complement of a 32-bit word. -/
def not32 (x : Nat) : Nat := x ^^^ 4294967295

/-- SHA-256 round constants `K` (FIPS 180-4, written in decimal). -/
def shaK : List Nat :=
  [1116352408, 1899447441, 3049323471, 3921009573, 961987163,
   1508970993, 2453635748, 2870763221, 3624381080, 310598401,
   607225278, 1426881987, 1925078388, 2162078206, 2614888103,
   3248222580, 3835390401, 4022224774, 264347078, 604807628,
   770255983, 1249150122, 1555081692, 1996064986, 2554220882,
   2821834349, 2952996808, 3210313671, 3336571891, 3584528711,
   113926993, 338241895, 666307205, 773529912, 1294757372,
   1396182291, 1695183700, 1986661051, 2177026350, 2456956037,
   2730485921, 2820302411, 3259730800, 3345764771, 3516065817,
   3600352804, 4094571909, 275423344, 430227734, 506948616,
   659060556, 883997877, 958139571, 1322822218, 1537002063,
   1747873779, 1955562222, 2024104815, 2227730452, 2361852424,
   2428436474, 2756734187, 3204031479, 3329325298]

/-- SHA-256 initial hash values (FIPS 180-4, written in decimal). -/
def shaH0 : List Nat :=
  [1779033703, 3144134277, 1013904242, 2773480762,
   1359893119, 2600822924, 528734635, 1541459225]

/-- Pad a byte message per FIPS 180-4: append `0x80`, zeros to 56 mod 64,
then the bit length as 8 big-endian bytes. -/
def shaPad (msg : List Nat) : List Nat :=
  let len := msg.length
  let bitLen := len * 8
  let zeros := (119 - len % 64) % 64
  msg ++ [128] ++ List.replicate zeros 0 ++
    [(bitLen >>> 56) % 256, (bitLen >>> 48) % 256, (bitLen >>> 40) % 256,
     (bitLen >>> 32) % 256, (bitLen >>> 24) % 256, (bitLen >>> 16) % 256,
     (bitLen >>> 8) % 256, bitLen % 256]

/-- Group bytes into big-endian 32-bit words. -/
def bytesToWords : List Nat → List Nat
  | b0 :: b1 :: b2 :: b3 :: rest =>
    ((b0 <<< 24) ||| (b1 <<< 16) ||| (b2 <<< 8) ||| b3) :: bytesToWords rest
  | _ => []

/-- Split a list into 64-byte blocks (`fuel` bounds the recursion; the caller
passes the list length, which always suffices). -/
def chunksAux : Nat → List Nat → List (List Nat)
  | 0, _ => []
  | _, [] => []
  | fuel + 1, l => l.take 64 :: chunksAux fuel (l.drop 64)

/-- Split a padded message into its 64-byte blocks. -/
def chunks64 (l : List Nat) : List (List Nat) :=
  chunksAux l.length l

/-- Message-schedule extension: extend the 16 block words to 64. -/
def shaSchedule (w16 : List Nat) : List Nat :=
  (List.range 48).foldl
    (fun w i =>
      let s0w := w.getD (i + 1) 0
      let s1w := w.getD (i + 14) 0
      let s0 := (rotr32 7 s0w) ^^^ (rotr32 18 s0w) ^^^ (s0w >>> 3)
      let s1 := (rotr32 17 s1w) ^^^ (rotr32 19 s1w) ^^^ (s1w >>> 10)
      w ++ [add32 (add32 (w.getD i 0) s0) (add32 (w.getD (i + 9) 0) s1)])
    w16

/-- One SHA-256 compression step (round `i`) on the 8-word working state. -/
def shaRound (w : List Nat) (st : List Nat) (i : Nat) : List Nat :=
  match st with
  | [a, b, c, d, e, f, g, h] =>
    let s1 := (rotr32 6 e) ^^^ (rotr32 11 e) ^^^ (rotr32 25 e)
    let ch := (e &&& f) ^^^ ((not32 e) &&& g)
    let temp1 := add32 (add32 (add32 h s1) (add32 ch (shaK.getD i 0))) (w.getD i 0)
    let s0 := (rotr32 2 a) ^^^ (rotr32 13 a) ^^^ (rotr32 22 a)
    let maj := (a &&& b) ^^^ (a &&& c) ^^^ (b &&& c)
    let temp2 := add32 s0 maj
    [add32 temp1 temp2, a, b, c, add32 d temp1, e, f, g]
  | other => other

/-- Compress one 64-byte block into the running hash. -/
def shaCompress (hs : List Nat) (block : List Nat) : List Nat :=
  let w := shaSchedule (bytesToWords block)
  let fin := (List.range 64).foldl (shaRound w) hs
  List.zipWith add32 hs fin

/-- SHA-256 digest of a byte message, as eight 32-bit words. -/
def sha256Words (msg : List Nat) : List Nat :=
  (chunks64 (shaPad msg)).foldl shaCompress shaH0

/-- Lowercase hex digit. -/
def hexDigit (n : Nat) : Char :=
  if n < 10 then Char.ofNat (48 + n) else Char.ofNat (87 + n)

/-- Render a 32-bit word as 8 lowercase hex digits. -/
def wordToHex (w : Nat) : List Char :=
  [hexDigit ((w >>> 28) % 16), hexDigit ((w >>> 24) % 16),
   hexDigit ((w >>> 20) % 16), hexDigit ((w >>> 16) % 16),
   hexDigit ((w >>> 12) % 16), hexDigit ((w >>> 8) % 16),
   hexDigit ((w >>> 4) % 16), hexDigit (w % 16)]

/-- Hex digest of a byte message (`.digest('hex')`). -/
def sha256HexBytes (msg : List Nat) : String :=
  ⟨(sha256Words msg).foldr (fun w acc => wordToHex w ++ acc) []⟩

/-- UTF-8 encoding of one character. -/
def utf8Bytes (c : Char) : List Nat :=
  let n := c.toNat
  if n < 128 then [n]
  else if n < 2048 then [192 + n / 64, 128 + n % 64]
  else if n < 65536 then [224 + n / 4096, 128 + (n / 64) % 64, 128 + n % 64]
  else [240 + n / 262144, 128 + (n / 4096) % 64, 128 + (n / 64) % 64,
        128 + n % 64]

/-- UTF-8 bytes of a string (what `hash.update(string)` consumes). -/
def strBytes (s : String) : List Nat :=
  s.toList.foldr (fun c acc => utf8Bytes c ++ acc) []

/-- `crypto.createHash('sha256').update(s).digest('hex')`. -/
def sha256String (s : String) : String :=
  sha256HexBytes (strBytes s)

/-! ## URL normalization and fingerprinting (`content-parser.service.js`)

`normalizeUrl` uses the WHATWG `URL` class of Node.js. The class is modelled
here for the URL shapes the service handles: `scheme://host[/path][?query][#fragment]`
with no userinfo, port or percent-encoding. As in WHATWG parsing, scheme and
host are lowercased on parse and an empty path serializes as `/`. An input
that does not parse takes the `catch` branch of the source. -/

structure UrlObj where
  scheme : String
  host : String
  path : String
  query : List (String × String)
  fragment : Option String
deriving DecidableEq, Repr

/-- Split `l` at the first occurrence of `sep`, returning the parts before
and after it. -/
def splitFirst (sep : List Char) : List Char → Option (List Char × List Char)
  | [] => if sep.isEmpty then some ([], []) else none
  | c :: rest =>
    if sep.isPrefixOf (c :: rest) then some ([], (c :: rest).drop sep.length)
    else
      match splitFirst sep rest with
      | some (pre, post) => some (c :: pre, post)
      | none => none

/-- Parse a query string (after `?`) into ordered name/value pairs, as
`URLSearchParams` does: split on `&`, empty pieces ignored, a piece without
`=` is a name with empty value. -/
def parseQuery (l : List Char) : List (String × String) :=
  (l.splitOn '&').filterMap (fun p =>
    if p.isEmpty then none
    else
      match splitFirst ['='] p with
      | some (k, v) => some (⟨k⟩, ⟨v⟩)
      | none => some (⟨p⟩, ""))

/-- `new URL(url)` for the modelled subset; `none` models the constructor
throwing. -/
def parseUrlString (url : String) : Option UrlObj :=
  match splitFirst "://".toList url.toList with
  | none => none
  | some (schemeChars, rest) =>
    if schemeChars.isEmpty then none
    else
      let hostChars := rest.takeWhile (fun c => c ≠ '/' && c ≠ '?' && c ≠ '#')
      if hostChars.isEmpty then none
      else
        let afterHost := rest.drop hostChars.length
        let pathChars := afterHost.takeWhile (fun c => c ≠ '?' && c ≠ '#')
        let afterPath := afterHost.drop pathChars.length
        let queryChars :=
          if afterPath.head? = some '?' then (afterPath.drop 1).takeWhile (· ≠ '#') else []
        let afterQuery :=
          if afterPath.head? = some '?' then (afterPath.drop 1).drop queryChars.length
          else afterPath
        let fragment : Option String :=
          if afterQuery.head? = some '#' then some ⟨afterQuery.drop 1⟩ else none
        some { scheme := strToLower ⟨schemeChars⟩
               host := strToLower ⟨hostChars⟩
               path := if pathChars.isEmpty then "/" else ⟨pathChars⟩
               query := parseQuery queryChars
               fragment := fragment }

/-- `URLSearchParams` serialization. -/
def renderQuery (q : List (String × String)) : String :=
  String.intercalate "&" (q.map (fun kv => kv.1 ++ "=" ++ kv.2))

/-- `url.toString()` for the modelled subset. -/
def renderUrl (u : UrlObj) : String :=
  u.scheme ++ "://" ++ u.host ++ u.path ++
    (if u.query.isEmpty then "" else "?" ++ renderQuery u.query) ++
    (match u.fragment with | some f => "#" ++ f | none => "")

/-- The fixed tracking-parameter list of `normalizeUrl`. -/
def trackingParams : List String :=
  ["utm_source", "utm_medium", "utm_campaign", "utm_term", "utm_content",
   "fbclid", "gclid"]

/-- `trackingParams.forEach(param => urlObj.searchParams.delete(param))`:
removes every pair whose name equals one of the listed names exactly
(`URLSearchParams` names are case-sensitive). -/
def deleteTrackingParams (u : UrlObj) : UrlObj :=
  { u with query := u.query.filter (fun kv => ¬ trackingParams.contains kv.1) }

/-- Strip one trailing `/` from the fully serialized URL
(`if (normalized.endsWith('/')) normalized = normalized.slice(0, -1)`). -/
def stripTrailingSlash (s : String) : String :=
  if jsEndsWith s "/" then ⟨s.toList.dropLast⟩ else s

/-- `normalizeUrl` of `content-parser.service.js`: parse, delete the fixed
tracking parameters, serialize, strip a trailing slash, lowercase; on a parse
failure, just lowercase the raw input. -/
def normalizeUrl (url : String) : String :=
  match parseUrlString url with
  | some u => strToLower (stripTrailingSlash (renderUrl (deleteTrackingParams u)))
  | none => strToLower url

/-- `generateUrlHash`: SHA-256 hex digest of the normalized URL. -/
def generateUrlHash (url : String) : String :=
  sha256String (normalizeUrl url)

/-- Does a query-parameter name count as tracking under the spec's reading
(`utm_*` glob, `fbclid`, `gclid`), case-insensitively? -/
def isTrackingNameSpec (name : String) : Bool :=
  jsStartsWith (strToLower name) "utm_" || strToLower name = "fbclid" ||
    strToLower name = "gclid"

/-- Canonical form under the spec's wording: lowercase, drop every tracking
parameter (glob reading), drop a trailing slash. Two URLs "differ only in
tracking query parameters (utm_*, fbclid, gclid), a trailing slash, or letter
case" exactly when their canonical forms agree. -/
def specCanonUrl (url : String) : String :=
  let low := strToLower url
  match parseUrlString low with
  | some u =>
    stripTrailingSlash
      (renderUrl { u with query := u.query.filter (fun kv => ¬ isTrackingNameSpec kv.1) })
  | none => stripTrailingSlash low

/-- The claim's equivalence on URL strings. -/
def urlEquivSpec (u1 u2 : String) : Prop :=
  specCanonUrl u1 = specCanonUrl u2

/-! ## Content-type detection (`content-parser.service.js`) -/

inductive ContentType
  | NEWS
  | OPINION
  | SATIRE
  | BREAKING
deriving DecidableEq, Repr

/-- Satire indicators of `detectContentType`. -/
def satireIndicators : List String :=
  ["satire", "parody", "theonion", "babylonbee", "borowitz"]

/-- Opinion indicators of `detectContentType`. -/
def opinionIndicators : List String :=
  ["opinion", "editorial", "op-ed", "commentary", "perspective", "analysis:"]

/-- Breaking-news indicators of `detectContentType`. -/
def breakingIndicators : List String :=
  ["breaking:", "breaking news", "developing:", "just in:"]

/-- `detectContentType($, content, url)` (the DOM handle `$` is unused by the
source's checks): satire first, then opinion (indicator in the URL or the
first 500 characters of the content), then breaking (first 200 characters),
default `NEWS`. -/
def detectContentType (content url : String) : ContentType :=
  let lowerContent := strToLower content
  let lowerUrl := strToLower url
  if satireIndicators.any (fun ind => jsIncludes lowerUrl ind || jsIncludes lowerContent ind) then
    .SATIRE
  else if opinionIndicators.any
      (fun ind => jsIncludes lowerUrl ind || jsIncludes (jsTake lowerContent 500) ind) then
    .OPINION
  else if breakingIndicators.any
      (fun ind => jsIncludes (strToLower (jsTake lowerContent 200)) ind) then
    .BREAKING
  else
    .NEWS

/-- `detectContentTypeFromText(text)`. -/
def detectContentTypeFromText (text : String) : ContentType :=
  let lowerText := strToLower text
  if jsIncludes lowerText "satire" || jsIncludes lowerText "parody" then
    .SATIRE
  else if jsStartsWith lowerText "opinion:" || jsIncludes lowerText "in my opinion" ||
      jsIncludes lowerText "i believe" then
    .OPINION
  else if jsStartsWith lowerText "breaking:" || jsIncludes lowerText "breaking news" then
    .BREAKING
  else
    .NEWS

/-! ## Raw-text parsing (`parseText` of `content-parser.service.js`) -/

/-- `extractTitleFromText(text)`: the first line if its length is in
(10, 200); otherwise the first sentence (up to the first `.`/`!`/`?`) if
shorter than 200; otherwise the first 100 characters plus `...`. -/
def extractTitleFromText (text : String) : String :=
  let firstLine : String := ⟨jsTrim ((text.toList.splitOn '\n').headD [])⟩
  if 10 < firstLine.length ∧ firstLine.length < 200 then firstLine
  else
    let chars := text.toList
    let pre := chars.takeWhile (fun c => c ≠ '.' && c ≠ '!' && c ≠ '?')
    if pre.length ≠ 0 ∧ pre.length < chars.length ∧ pre.length + 1 < 200 then
      ⟨jsTrim (chars.take (pre.length + 1))⟩
    else
      jsTake text 100 ++ "..."

structure ParsedText where
  success : Bool
  urlHash : String
  originalUrl : Option String
  title : String
  source : String
  content : String
  contentType : ContentType
deriving DecidableEq, Repr

/-- `parseText(text)`. Note the order in the source: the SHA-256 digest is
taken of the text exactly as received (line 224), and only afterwards is the
text whitespace-normalized into `cleanedText` (lines 227-230). -/
def parseText (text : String) : ParsedText :=
  let hash := sha256String text
  let cleanedText := cleanText text
  { success := true
    urlHash := hash
    originalUrl := none
    title := extractTitleFromText cleanedText
    source := "Direct Text Input"
    content := cleanedText
    contentType := detectContentTypeFromText cleanedText }

/-! ## Score adjustment, blending and classification
(`credibility.service.js`, `config/index.js`) -/

/-- `config.scoring.lowConfidenceThreshold` (`0.5`). -/
def lowConfidenceThreshold : ℚ := 1 / 2

structure AdjustedScore where
  score : ℚ
  confidence : ℚ
  contentType : ContentType
  warning : Option String
deriving DecidableEq, Repr

/-- `adjustScoreForContentType(score, confidence, contentType)` (step A of the
pipeline). The `switch` mutates only `adjustedConfidence` and `warning`;
`adjustedScore` keeps its initializer in every branch. -/
def adjustScoreForContentType (score confidence : ℚ) (contentType : ContentType) :
    AdjustedScore :=
  match contentType with
  | .SATIRE =>
    { score := score
      confidence := 0
      contentType := contentType
      warning := some "This content appears to be satire and should not be taken as factual news." }
  | .BREAKING =>
    { score := score
      confidence := min confidence lowConfidenceThreshold
      contentType := contentType
      warning := some "This is breaking news. Details may change as the story develops." }
  | .OPINION =>
    { score := score
      confidence := confidence
      contentType := contentType
      warning := some "This is an opinion piece and represents the author\x27s viewpoint." }
  | .NEWS =>
    { score := score
      confidence := confidence
      contentType := contentType
      warning := none }

/-- `Math.round` (exact on JavaScript numbers: round half toward +∞). -/
def jsRound (x : ℚ) : ℤ := ⌊x + 1 / 2⌋

structure MlPrediction where
  label : String
  confidence : ℚ
  real_probability : ℚ
  fake_probability : ℚ
deriving DecidableEq, Repr

/-- Step 7b of `performAnalysis`: blend the ML prediction into the adjusted
LLM score when a prediction is present (`let finalScore = adjustedScore.score;
if (mlPrediction) { ... }`). When `mlPrediction` is `null`, `finalScore` is
the adjusted score as-is — no rounding and no clamping happen on that path. -/
def computeFinalScore (adjustedScore : ℚ) (mlPrediction : Option MlPrediction) : ℚ :=
  match mlPrediction with
  | none => adjustedScore
  | some p =>
    let mlScore : ℤ := jsRound p.real_probability
    let blended : ℤ := jsRound (adjustedScore * (7 / 10) + (mlScore : ℚ) * (3 / 10))
    max 0 (min 100 (blended : ℚ))

/-- The spec's reference blend:
`round(llmScore * 0.7 + round(realProbability) * 0.3)` clamped to `[0,100]`. -/
def specBlend (llmScore realProbability : ℚ) : ℚ :=
  max 0 (min 100
    ((jsRound (llmScore * (7 / 10) + ((jsRound realProbability : ℤ) : ℚ) * (3 / 10)) : ℤ) : ℚ))

structure ScoreCategory where
  category : String
  color : String
  label : String
  badge : String
  extensionAction : String
  feedVisible : Bool
deriving DecidableEq, Repr

/-- `getScoreCategory(score)`: the CLARIX credibility bands. -/
def getScoreCategory (score : ℚ) : ScoreCategory :=
  if score ≥ 90 then
    { category := "authorized", color := "#3B82F6", label := "Authorized"
      badge := "VERIFIED", extensionAction := "show_blue_badge", feedVisible := true }
  else if score ≥ 60 then
    { category := "suspicious", color := "#EF4444", label := "Suspicious"
      badge := "UNVERIFIED", extensionAction := "show_red_badge", feedVisible := true }
  else
    { category := "flagged", color := "#6B7280", label := "Flagged as Fake"
      badge := "FAKE", extensionAction := "show_overlay", feedVisible := false }

structure Verdict where
  label : String
  icon : String
  text : String
deriving DecidableEq, Repr

/-- `mapVerdict(score)`: the frontend/extension verdict partition. -/
def mapVerdict (score : ℚ) : Verdict :=
  if score ≥ 70 then { label := "Credible", icon := "✅", text := "Likely Credible" }
  else if score ≥ 45 then { label := "Uncertain", icon := "⚠️", text := "Unverified Claim" }
  else { label := "Misleading", icon := "🚫", text := "Likely Misleading" }

/-! ## Claim storage (`storeClaims`, `mapClaimType`) -/

structure ExtractedClaim where
  text : String
  type : Option String
deriving DecidableEq, Repr

/-- A claim verification as returned by the verifier; `status`, `confidence`
and `evidence` are `Option` because the JSON object may omit them. -/
structure Verification where
  claimIndex : ℤ
  status : Option String
  confidence : Option ℚ
  evidence : Option String
  sources : List String
deriving DecidableEq, Repr

/-- The row written by `prisma.claim.create` for one claim. -/
structure StoredClaim where
  claimText : String
  claimType : String
  isVerified : Bool
  verificationStatus : String
  confidence : ℚ
  evidence : Option String
  sources : List String
deriving DecidableEq, Repr

/-- `mapClaimType(type)`: uppercase and look up in the identity mapping,
defaulting to `FACTUAL` (also when `type` is absent). -/
def mapClaimType (type : Option String) : String :=
  let mapping : List (String × String) :=
    [("FACTUAL", "FACTUAL"), ("STATISTICAL", "STATISTICAL"), ("QUOTE", "QUOTE"),
     ("OPINION", "OPINION"), ("PREDICTION", "PREDICTION")]
  match type with
  | some t => (mapping.lookup (strToUpper t)).getD "FACTUAL"
  | none => "FACTUAL"

/-- The record built for claim `i` from `verifications.find(v => v.claimIndex
=== i) || {}`; `v = none` models `find` returning `undefined`. -/
def buildStoredClaim (claim : ExtractedClaim) (v : Option Verification) : StoredClaim :=
  { claimText := claim.text
    claimType := mapClaimType claim.type
    isVerified := (v.bind (·.status)) = some "VERIFIED"
    verificationStatus := (v.bind (·.status)).getD "PENDING"
    confidence := (v.bind (·.confidence)).getD 0
    evidence := v.bind (·.evidence)
    sources := (v.map (·.sources)).getD [] }

/-- `storeClaims(articleId, extractedClaims, verifications)`: one stored row
per extracted claim, in order; claim `i` is paired with the first verification
whose `claimIndex` equals `i`. -/
def storeClaims (extractedClaims : List ExtractedClaim) (verifications : List Verification) :
    List StoredClaim :=
  (List.range extractedClaims.length).map (fun i =>
    buildStoredClaim (extractedClaims.getD i ⟨"", none⟩)
      (verifications.find? (fun v => v.claimIndex = (i : ℤ))))

/-! ## Result formatting (`formatAnalysisResult`)

The formatter is a pure projection of the persisted score (plus pass-through
copies of article/result/claim fields, elided here as plain data copies); the
fields kept are the ones derived from the score, which the claims are about,
plus the `cached` flag the callers merge in (`{ ...result, cached: bool }`). -/

structure FormattedResult where
  score : ℚ
  verdict : String
  trustScore : ℚ
  credCategory : String
  credBadge : String
  extensionAction : String
  showOverlay : Bool
  showWarning : Bool
  cached : Bool
deriving DecidableEq, Repr

/-- The score-derived fields of `formatAnalysisResult(article, analysisResult,
...)`, as functions of `analysisResult.score`; `cached` is `false` until a
caller overrides it. -/
def formatAnalysisResult (score : ℚ) : FormattedResult :=
  let scoreCategory := getScoreCategory score
  let verdict := mapVerdict score
  { score := score
    verdict := verdict.label
    trustScore := score
    credCategory := scoreCategory.category
    credBadge := scoreCategory.badge
    extensionAction := scoreCategory.extensionAction
    showOverlay := scoreCategory.category = "flagged"
    showWarning := scoreCategory.category = "suspicious"
    cached := false }

/-! ## Orchestration (`analyzeUrl`, `analyzeText`, `performAnalysis`)

The stateful pipeline is embedded by passing the outcome of every external
effect explicitly:

* operations whose service wrapper swallows its own errors are total here
  (`cacheService.get/set` return `null`/`false` on error; `extractClaims`
  returns `[]`; `predictFakeNews` and its extra `.catch` return `null`;
  `retrieveForClaims` returns `[]`; `verifyClaims` returns a fallback list;
  `logRequest` has an internal `try/catch`);
* operations that can throw into the caller carry an `Except`
  (`prisma.article.findUnique/upsert`, `prisma.claim.create`,
  `prisma.analysisResult.create`, `analyzeCredibility` which rethrows,
  and `parseUrl` whose `success: false` is turned into a `throw`).

Each call returns the primary outcome together with the ordered list of
`AnalysisRequest` audit-write attempts it made; `succeeded` records whether
the attempted `prisma.analysisRequest.create` itself went through
(`logRequest` swallows that failure either way). -/

inductive AuditStatus
  | CACHED
  | COMPLETED
  | FAILED
deriving DecidableEq, Repr

structure AuditAttempt where
  requestType : String
  status : AuditStatus
  succeeded : Bool
deriving DecidableEq, Repr

/-- The credibility assessment returned by `analyzeCredibility` (textual
fields elided; only the numeric fields feed the score pipeline). -/
structure CredResult where
  score : ℚ
  confidence : ℚ
deriving DecidableEq, Repr

/-- Outcomes of the effects used inside `performAnalysis`. -/
structure PerfEnv where
  upsert : Except String Unit
  extractedClaims : List ExtractedClaim
  mlPrediction : Option MlPrediction
  verifications : List Verification
  claimWrites : Except String Unit
  credibility : Except String CredResult
  resultCreate : Except String Unit
deriving Repr

/-- `performAnalysis(parsed)`: article upsert, claim extraction + ML
prediction, verification, claim storage, credibility assessment, content-type
adjustment (step 7), ML blending (step 7b), `AnalysisResult` creation, then
the `COMPLETED` audit write. A thrown error aborts the sequence and is
propagated to the caller with no audit write of its own. -/
def performAnalysis (env : PerfEnv) (contentType : ContentType)
    (requestType : String) (auditOk : Bool) :
    Except String FormattedResult × List AuditAttempt :=
  match env.upsert with
  | .error e => (.error e, [])
  | .ok _ =>
    let _storedClaims := storeClaims env.extractedClaims env.verifications
    match env.claimWrites with
    | .error e => (.error e, [])
    | .ok _ =>
      match env.credibility with
      | .error e => (.error e, [])
      | .ok cred =>
        let adjusted := adjustScoreForContentType cred.score cred.confidence contentType
        let finalScore := computeFinalScore adjusted.score env.mlPrediction
        match env.resultCreate with
        | .error e => (.error e, [])
        | .ok _ =>
          (.ok (formatAnalysisResult finalScore),
           [{ requestType := requestType, status := .COMPLETED, succeeded := auditOk }])

/-- A persisted article found by the step-2 lookup, reduced to the score of
its latest `AnalysisResult`. -/
structure DbHit where
  score : ℚ
deriving DecidableEq, Repr

/-- Outcomes of the effects used by `analyzeUrl`. -/
structure UrlEnv where
  cacheHit : Option FormattedResult
  dbLookup : Except String (Option DbHit)
  parseOutcome : Except String ContentType
  perf : PerfEnv
  cacheSetOk : Bool
  auditOk : Bool
deriving Repr

/-- `analyzeUrl(url)`: cache check, persisted-result check, parse, full
analysis; the surrounding `try/catch` logs a `FAILED` audit row for any
thrown error and rethrows. `cacheSetOk` is the outcome of the best-effort
`cacheService.setAnalysis` (it never throws and is not consulted). -/
def analyzeUrlModel (env : UrlEnv) : Except String FormattedResult × List AuditAttempt :=
  match env.cacheHit with
  | some cached =>
    (.ok { cached with cached := true },
     [{ requestType := "URL", status := .CACHED, succeeded := env.auditOk }])
  | none =>
    match env.dbLookup with
    | .error e =>
      (.error e, [{ requestType := "URL", status := .FAILED, succeeded := env.auditOk }])
    | .ok (some hit) =>
      (.ok { formatAnalysisResult hit.score with cached := true },
       [{ requestType := "URL", status := .CACHED, succeeded := env.auditOk }])
    | .ok none =>
      match env.parseOutcome with
      | .error e =>
        (.error ("Failed to parse URL: " ++ e),
         [{ requestType := "URL", status := .FAILED, succeeded := env.auditOk }])
      | .ok contentType =>
        match performAnalysis env.perf contentType "URL" env.auditOk with
        | (.error e, attempts) =>
          (.error e,
           attempts ++ [{ requestType := "URL", status := .FAILED, succeeded := env.auditOk }])
        | (.ok result, attempts) => (.ok { result with cached := false }, attempts)

/-- Outcomes of the effects used by `analyzeText`. -/
structure TextEnv where
  cacheHit : Option FormattedResult
  perf : PerfEnv
  cacheSetOk : Bool
  auditOk : Bool
deriving Repr

/-- `analyzeText(text)`: `parseText` (pure, total), cache check, full
analysis, with the same `try/catch` audit behavior as `analyzeUrl`. -/
def analyzeTextModel (env : TextEnv) (text : String) :
    Except String FormattedResult × List AuditAttempt :=
  let parsed := parseText text
  match env.cacheHit with
  | some cached =>
    (.ok { cached with cached := true },
     [{ requestType := "TEXT", status := .CACHED, succeeded := env.auditOk }])
  | none =>
    match performAnalysis env.perf parsed.contentType "TEXT" env.auditOk with
    | (.error e, attempts) =>
      (.error e,
       attempts ++ [{ requestType := "TEXT", status := .FAILED, succeeded := env.auditOk }])
    | (.ok result, attempts) => (.ok { result with cached := false }, attempts)

/-- The audit status each outcome should have been logged with: `FAILED` for
a thrown error, `CACHED` for a result served from cache or persisted storage,
`COMPLETED` for a fresh analysis. -/
def auditStatusOf : Except String FormattedResult → AuditStatus
  | .error _ => .FAILED
  | .ok r => if r.cached then .CACHED else .COMPLETED

/-! ## Theorems -/

/-- Claim C3: content-type adjustment (step A) matches the spec's table:
SATIRE forces confidence to exactly 0 with a warning and leaves the score
unchanged; BREAKING caps confidence at `min(confidence, 0.5)` with a warning;
OPINION attaches a warning and leaves score and confidence unchanged; NEWS
changes nothing; and step A never modifies the score for any content type. -/
theorem adjustScore_matches_spec_table (s c : ℚ) :
    ((adjustScoreForContentType s c .SATIRE).confidence = 0 ∧
      (adjustScoreForContentType s c .SATIRE).warning.isSome = true ∧
      (adjustScoreForContentType s c .SATIRE).score = s) ∧
    ((adjustScoreForContentType s c .BREAKING).confidence = min c lowConfidenceThreshold ∧
      (adjustScoreForContentType s c .BREAKING).warning.isSome = true) ∧
    ((adjustScoreForContentType s c .OPINION).warning.isSome = true ∧
      (adjustScoreForContentType s c .OPINION).score = s ∧
      (adjustScoreForContentType s c .OPINION).confidence = c) ∧
    (adjustScoreForContentType s c .NEWS =
      { score := s, confidence := c, contentType := .NEWS, warning := none }) ∧
    (∀ contentType, (adjustScoreForContentType s c contentType).score = s) := by
  refine ⟨⟨rfl, rfl, rfl⟩, ⟨rfl, rfl⟩, ⟨rfl, rfl, rfl⟩, rfl, fun ct => ?_⟩
  cases ct <;> rfl

/-- Claim C1, counterexample: with no ML prediction the final score is the
post-step-A LLM score with no clamping at all, so an out-of-range LLM score
(here 150) is persisted as-is, outside `[0,100]`. -/
theorem finalScore_not_clamped_without_ml :
    computeFinalScore ((adjustScoreForContentType 150 (1 / 2) .NEWS).score) none = 150 ∧
    ¬ computeFinalScore ((adjustScoreForContentType 150 (1 / 2) .NEWS).score) none ≤ 100 := by
  constructor
  · rfl
  · norm_num [computeFinalScore, adjustScoreForContentType]

/-- Claim C1, amended: when an ML prediction is present, the final score
equals the spec's reference blend `round(llm*0.7 + round(real)*0.3)` clamped
to `[0,100]` (and `blend(80,60) = 74`); when the prediction is absent the
final score is the post-step-A LLM score **unclamped**, so the persisted
score is only guaranteed to be in `[0,100]` on the blending branch. -/
theorem computeFinalScore_spec :
    (∀ (a : ℚ) (p : MlPrediction),
      computeFinalScore a (some p) = specBlend a p.real_probability ∧
      0 ≤ computeFinalScore a (some p) ∧
      computeFinalScore a (some p) ≤ 100) ∧
    (∀ a : ℚ, computeFinalScore a none = a) ∧
    specBlend 80 60 = 74 := by
  refine ⟨fun a p => ⟨rfl, le_max_left 0 _, max_le (by norm_num) (min_le_left _ _)⟩,
    fun a => rfl, ?_⟩
  have h60 : jsRound (60 : ℚ) = 60 := by
    unfold jsRound
    norm_num
  have h74 : jsRound ((80 : ℚ) * (7 / 10) + ((60 : ℤ) : ℚ) * (3 / 10)) = 74 := by
    unfold jsRound
    norm_num
  unfold specBlend
  rw [h60, h74]
  norm_num

/-- Claim C2: tier classification is a total, non-overlapping partition of
integer scores in `[0,100]`: `authorized` exactly when `score ≥ 90` (badge
VERIFIED, blue-badge action, feed-visible), `suspicious` exactly when
`60 ≤ score ≤ 89` (badge UNVERIFIED, red-badge action, feed-visible),
`flagged` exactly when `score ≤ 59` (badge FAKE, overlay action, not
feed-visible); in particular 90 is authorized, 89 and 60 suspicious, 59
flagged. -/
theorem getScoreCategory_partition (n : ℤ) (h0 : 0 ≤ n) (h1 : n ≤ 100) :
    (90 ≤ n → getScoreCategory (n : ℚ) =
      { category := "authorized", color := "#3B82F6", label := "Authorized",
        badge := "VERIFIED", extensionAction := "show_blue_badge", feedVisible := true }) ∧
    (60 ≤ n → n ≤ 89 → getScoreCategory (n : ℚ) =
      { category := "suspicious", color := "#EF4444", label := "Suspicious",
        badge := "UNVERIFIED", extensionAction := "show_red_badge", feedVisible := true }) ∧
    (n ≤ 59 → getScoreCategory (n : ℚ) =
      { category := "flagged", color := "#6B7280", label := "Flagged as Fake",
        badge := "FAKE", extensionAction := "show_overlay", feedVisible := false }) ∧
    ((getScoreCategory (n : ℚ)).category = "authorized" ↔ 90 ≤ n) ∧
    ((getScoreCategory (n : ℚ)).category = "suspicious" ↔ 60 ≤ n ∧ n ≤ 89) ∧
    ((getScoreCategory (n : ℚ)).category = "flagged" ↔ n ≤ 59) ∧
    (getScoreCategory (90 : ℚ)).category = "authorized" ∧
    (getScoreCategory (89 : ℚ)).category = "suspicious" ∧
    (getScoreCategory (60 : ℚ)).category = "suspicious" ∧
    (getScoreCategory (59 : ℚ)).category = "flagged" := by
  have b90 : (getScoreCategory (90 : ℚ)).category = "authorized" := by
    unfold getScoreCategory
    rw [if_pos (by norm_num)]
  have b89 : (getScoreCategory (89 : ℚ)).category = "suspicious" := by
    unfold getScoreCategory
    rw [if_neg (by norm_num), if_pos (by norm_num)]
  have b60 : (getScoreCategory (60 : ℚ)).category = "suspicious" := by
    unfold getScoreCategory
    rw [if_neg (by norm_num), if_pos (by norm_num)]
  have b59 : (getScoreCategory (59 : ℚ)).category = "flagged" := by
    unfold getScoreCategory
    rw [if_neg (by norm_num), if_neg (by norm_num)]
  have key : (90 ≤ n ∧ getScoreCategory (n : ℚ) =
      { category := "authorized", color := "#3B82F6", label := "Authorized",
        badge := "VERIFIED", extensionAction := "show_blue_badge", feedVisible := true }) ∨
      ((60 ≤ n ∧ n ≤ 89) ∧ getScoreCategory (n : ℚ) =
      { category := "suspicious", color := "#EF4444", label := "Suspicious",
        badge := "UNVERIFIED", extensionAction := "show_red_badge", feedVisible := true }) ∨
      (n ≤ 59 ∧ getScoreCategory (n : ℚ) =
      { category := "flagged", color := "#6B7280", label := "Flagged as Fake",
        badge := "FAKE", extensionAction := "show_overlay", feedVisible := false }) := by
    unfold getScoreCategory
    rcases le_or_lt 90 n with h | h
    · exact Or.inl ⟨h, by rw [if_pos (show (n : ℚ) ≥ 90 by exact_mod_cast h)]⟩
    · have hn90 : ¬ ((n : ℚ) ≥ 90) := not_le.mpr (by exact_mod_cast h)
      rcases le_or_lt 60 n with h2 | h2
      · exact Or.inr (Or.inl ⟨⟨h2, by omega⟩,
          by rw [if_neg hn90, if_pos (show (n : ℚ) ≥ 60 by exact_mod_cast h2)]⟩)
      · have hn60 : ¬ ((n : ℚ) ≥ 60) := not_le.mpr (by exact_mod_cast h2)
        exact Or.inr (Or.inr ⟨by omega, by rw [if_neg hn90, if_neg hn60]⟩)
  rcases key with ⟨h, e⟩ | ⟨⟨ha, hb⟩, e⟩ | ⟨h, e⟩ <;> rw [e]
  · exact ⟨fun _ => rfl, fun h1 _ => absurd h (by omega), fun h1 => absurd h (by omega),
      iff_of_true rfl h, iff_of_false (by decide) (by omega),
      iff_of_false (by decide) (by omega), b90, b89, b60, b59⟩
  · exact ⟨fun h1 => absurd h1 (by omega), fun _ _ => rfl, fun h1 => absurd h1 (by omega),
      iff_of_false (by decide) (by omega), iff_of_true rfl ⟨ha, hb⟩,
      iff_of_false (by decide) (by omega), b90, b89, b60, b59⟩
  · exact ⟨fun h1 => absurd h1 (by omega), fun h1 _ => absurd h1 (by omega), fun _ => rfl,
      iff_of_false (by decide) (by omega), iff_of_false (by decide) (by omega),
      iff_of_true rfl h, b90, b89, b60, b59⟩

/-- Claim C2, witness: the partition theorem applied at the boundary score
89, which lands in the suspicious tier. -/
theorem getScoreCategory_partition_witness :
    (getScoreCategory ((89 : ℤ) : ℚ)).category = "suspicious" :=
  ((getScoreCategory_partition 89 (by decide) (by decide)).2.2.2.2.1).mpr (by decide)

/-- Claim C10: the formatted result's flat `verdict` field is a second,
independent partition of the score — `Credible` iff `score ≥ 70`, `Uncertain`
iff `45 ≤ score < 70`, `Misleading` iff `score < 45` — whose boundaries
differ from the tier boundaries, so every score in `[70,89]` carries verdict
`Credible` together with tier category `suspicious` and badge `UNVERIFIED`. -/
theorem formatted_verdict_partition (n : ℤ) :
    ((formatAnalysisResult (n : ℚ)).verdict = "Credible" ↔ 70 ≤ n) ∧
    ((formatAnalysisResult (n : ℚ)).verdict = "Uncertain" ↔ 45 ≤ n ∧ n < 70) ∧
    ((formatAnalysisResult (n : ℚ)).verdict = "Misleading" ↔ n < 45) ∧
    (70 ≤ n → n ≤ 89 →
      (formatAnalysisResult (n : ℚ)).verdict = "Credible" ∧
      (formatAnalysisResult (n : ℚ)).credCategory = "suspicious" ∧
      (formatAnalysisResult (n : ℚ)).credBadge = "UNVERIFIED") := by
  have hv : (formatAnalysisResult (n : ℚ)).verdict = (mapVerdict (n : ℚ)).label := rfl
  have hc : (formatAnalysisResult (n : ℚ)).credCategory =
      (getScoreCategory (n : ℚ)).category := rfl
  have hbg : (formatAnalysisResult (n : ℚ)).credBadge = (getScoreCategory (n : ℚ)).badge := rfl
  have keyV : (70 ≤ n ∧ (mapVerdict (n : ℚ)).label = "Credible") ∨
      ((45 ≤ n ∧ n < 70) ∧ (mapVerdict (n : ℚ)).label = "Uncertain") ∨
      (n < 45 ∧ (mapVerdict (n : ℚ)).label = "Misleading") := by
    unfold mapVerdict
    rcases le_or_lt 70 n with h | h
    · exact Or.inl ⟨h, by rw [if_pos (show (n : ℚ) ≥ 70 by exact_mod_cast h)]⟩
    · have h70 : ¬ ((n : ℚ) ≥ 70) := not_le.mpr (by exact_mod_cast h)
      rcases le_or_lt 45 n with h2 | h2
      · exact Or.inr (Or.inl ⟨⟨h2, h⟩,
          by rw [if_neg h70, if_pos (show (n : ℚ) ≥ 45 by exact_mod_cast h2)]⟩)
      · have h45 : ¬ ((n : ℚ) ≥ 45) := not_le.mpr (by exact_mod_cast h2)
        exact Or.inr (Or.inr ⟨h2, by rw [if_neg h70, if_neg h45]⟩)
  have hsusp : 70 ≤ n → n ≤ 89 →
      (getScoreCategory (n : ℚ)).category = "suspicious" ∧
      (getScoreCategory (n : ℚ)).badge = "UNVERIFIED" := by
    intro h1 h2
    unfold getScoreCategory
    rw [if_neg (show ¬ ((n : ℚ) ≥ 90) from
          not_le.mpr (by exact_mod_cast (show n < 90 by omega))),
        if_pos (show (n : ℚ) ≥ 60 by exact_mod_cast (show (60 : ℤ) ≤ n by omega))]
    exact ⟨rfl, rfl⟩
  rw [hv, hc, hbg]
  rcases keyV with ⟨h, e⟩ | ⟨⟨ha, hb2⟩, e⟩ | ⟨h, e⟩ <;> rw [e]
  · exact ⟨iff_of_true rfl h, iff_of_false (by decide) (by omega),
      iff_of_false (by decide) (by omega),
      fun h1 h2 => ⟨rfl, (hsusp h1 h2).1, (hsusp h1 h2).2⟩⟩
  · exact ⟨iff_of_false (by decide) (by omega), iff_of_true rfl ⟨ha, hb2⟩,
      iff_of_false (by decide) (by omega), fun h1 _ => absurd h1 (by omega)⟩
  · exact ⟨iff_of_false (by decide) (by omega), iff_of_false (by decide) (by omega),
      iff_of_true rfl h, fun h1 _ => absurd h1 (by omega)⟩

/-- Claim C10, witness: at score 75 the formatted result is simultaneously
verdict-`Credible` and tier-`suspicious` with badge `UNVERIFIED`. -/
theorem formatted_verdict_partition_witness :
    (formatAnalysisResult ((75 : ℤ) : ℚ)).verdict = "Credible" ∧
    (formatAnalysisResult ((75 : ℤ) : ℚ)).credCategory = "suspicious" ∧
    (formatAnalysisResult ((75 : ℤ) : ℚ)).credBadge = "UNVERIFIED" :=
  (formatted_verdict_partition 75).2.2.2 (by decide) (by decide)

/-- Claim C8: satire indicators have highest priority in content-type
classification — any satire indicator in the text or URL yields `SATIRE`
regardless of other indicators (in both the HTML-based and the raw-text
classifier); a text with both "satire" and "opinion" keywords classifies as
`SATIRE`, and with no indicators the default is `NEWS`. -/
theorem satire_indicators_win (content url text : String) :
    ((satireIndicators.any
        (fun ind => jsIncludes (strToLower url) ind || jsIncludes (strToLower content) ind)) = true →
      detectContentType content url = .SATIRE) ∧
    ((jsIncludes (strToLower text) "satire" || jsIncludes (strToLower text) "parody") = true →
      detectContentTypeFromText text = .SATIRE) ∧
    detectContentType "Opinion: this is satire commentary" "https://example.com/opinion" = .SATIRE ∧
    detectContentTypeFromText "opinion: i believe this is satire" = .SATIRE ∧
    detectContentType "A plain report about events" "https://example.com/story" = .NEWS ∧
    detectContentTypeFromText "A plain report about events" = .NEWS := by
  refine ⟨?_, ?_, by decide, by decide, by decide, by decide⟩
  · intro h
    unfold detectContentType
    simp only [h, if_true]
  · intro h
    unfold detectContentTypeFromText
    simp only [h, if_true]

/-- Claim C8, witness: the priority rule applied to a concrete text and URL
carrying satire, opinion and breaking indicators at once. -/
theorem satire_indicators_win_witness :
    detectContentType "breaking news: an opinion satire" "https://example.com" = .SATIRE :=
  (satire_indicators_win "breaking news: an opinion satire" "https://example.com" "").1
    (by decide)

/-- Claim C9: positional claim/verification alignment is tolerant of
orphans — the stored list has one row per extracted claim, row `i` pairs
claim `i` with the verification whose `claimIndex` is `i`; a verification
whose `claimIndex` matches no claim is ignored (dropping it from the input
changes nothing); a claim with no matching verification is stored with
status `PENDING`, confidence 0 and `isVerified = false`. -/
theorem storeClaims_positional_alignment
    (claims : List ExtractedClaim) (verifs : List Verification) :
    ((storeClaims claims verifs).length = claims.length) ∧
    (∀ i : Nat, i < claims.length →
      (storeClaims claims verifs)[i]? =
        some (buildStoredClaim (claims.getD i ⟨"", none⟩)
          (verifs.find? (fun v => v.claimIndex = (i : ℤ))))) ∧
    (∀ orphan : Verification,
      ¬ (0 ≤ orphan.claimIndex ∧ orphan.claimIndex < (claims.length : ℤ)) →
      storeClaims claims (verifs ++ [orphan]) = storeClaims claims verifs) ∧
    (∀ i : Nat, i < claims.length →
      verifs.find? (fun v => v.claimIndex = (i : ℤ)) = none →
      (storeClaims claims verifs)[i]? =
        some (buildStoredClaim (claims.getD i ⟨"", none⟩) none) ∧
      (buildStoredClaim (claims.getD i ⟨"", none⟩) none).verificationStatus = "PENDING" ∧
      (buildStoredClaim (claims.getD i ⟨"", none⟩) none).confidence = 0 ∧
      (buildStoredClaim (claims.getD i ⟨"", none⟩) none).isVerified = false) := by
  refine ⟨by simp [storeClaims], ?_, ?_, ?_⟩
  · intro i hi
    simp [storeClaims, List.getElem?_map, List.getElem?_range, hi]
  · intro orphan ho
    unfold storeClaims
    apply List.map_congr_left
    intro i hi
    rw [List.mem_range] at hi
    have hne : (fun v => decide (v.claimIndex = (i : ℤ))) orphan = false := by
      simp only [decide_eq_false_iff_not]
      intro hEq
      refine ho ⟨by omega, ?_⟩
      have : (i : ℤ) < (claims.length : ℤ) := by exact_mod_cast hi
      omega
    rw [List.find?_append]
    simp [List.find?, hne]
  · intro i hi hnone
    refine ⟨?_, rfl, rfl, rfl⟩
    rw [show (storeClaims claims verifs)[i]? =
        some (buildStoredClaim (claims.getD i ⟨"", none⟩)
          (verifs.find? (fun v => v.claimIndex = (i : ℤ)))) from
      by simp [storeClaims, List.getElem?_map, List.getElem?_range, hi], hnone]

/-- Claim C9, witness: the claim's own scenario — two claims (indices 0 and
1) and an orphan verification with `claimIndex = 2`, which is silently
ignored. -/
theorem storeClaims_positional_alignment_witness :
    storeClaims [⟨"c0", some "FACTUAL"⟩, ⟨"c1", none⟩]
        ([⟨0, some "VERIFIED", some (9 / 10), some "ev", []⟩] ++
          [⟨2, some "FALSE", some (1 / 2), none, []⟩]) =
      storeClaims [⟨"c0", some "FACTUAL"⟩, ⟨"c1", none⟩]
        [⟨0, some "VERIFIED", some (9 / 10), some "ev", []⟩] :=
  (storeClaims_positional_alignment [⟨"c0", some "FACTUAL"⟩, ⟨"c1", none⟩]
      [⟨0, some "VERIFIED", some (9 / 10), some "ev", []⟩]).2.2.1
    ⟨2, some "FALSE", some (1 / 2), none, []⟩ (by decide)

/-- Claim C5: every call to `analyzeUrl`/`analyzeText` — cache hit,
persisted-result hit, fresh success, or failure — attempts exactly one
`AnalysisRequest` audit write, with status CACHED, COMPLETED or FAILED
matching the outcome; and the success or failure of that audit write itself
never changes the primary outcome. -/
theorem audit_row_exactly_once (env : UrlEnv) (tenv : TextEnv) (text : String) :
    ((analyzeUrlModel env).2.map (·.status) = [auditStatusOf (analyzeUrlModel env).1]) ∧
    ((analyzeTextModel tenv text).2.map (·.status) =
      [auditStatusOf (analyzeTextModel tenv text).1]) ∧
    (∀ b : Bool, (analyzeUrlModel { env with auditOk := b }).1 = (analyzeUrlModel env).1) ∧
    (∀ b : Bool,
      (analyzeTextModel { tenv with auditOk := b } text).1 = (analyzeTextModel tenv text).1) := by
  have shape : ∀ (penv : PerfEnv) (ct : ContentType) (rt : String),
      (∃ e, ∀ b : Bool, performAnalysis penv ct rt b = (.error e, [])) ∨
      (∃ s, ∀ b : Bool, performAnalysis penv ct rt b =
        (.ok (formatAnalysisResult s),
          [{ requestType := rt, status := .COMPLETED, succeeded := b }])) := by
    intro penv ct rt
    obtain ⟨up, ec, ml, vf, cw, cd, rc⟩ := penv
    rcases up with e | u
    · exact Or.inl ⟨e, fun b => rfl⟩
    · rcases cw with e | c
      · exact Or.inl ⟨e, fun b => rfl⟩
      · rcases cd with e | cred
        · exact Or.inl ⟨e, fun b => rfl⟩
        · rcases rc with e | r
          · exact Or.inl ⟨e, fun b => rfl⟩
          · exact Or.inr ⟨_, fun b => rfl⟩
  obtain ⟨cacheHit, dbLookup, parseOutcome, perf, cacheSetOk, auditOk⟩ := env
  obtain ⟨tCacheHit, tPerf, tCacheSetOk, tAuditOk⟩ := tenv
  refine ⟨?_, ?_, fun b => ?_, fun b => ?_⟩
  · rcases cacheHit with _ | ⟨c1, c2, c3, c4, c5, c6, c7, c8, c9⟩
    · rcases dbLookup with e | (_ | ⟨hs⟩)
      · simp [analyzeUrlModel, auditStatusOf]
      · rcases parseOutcome with e2 | ct
        · simp [analyzeUrlModel, auditStatusOf]
        · rcases shape perf ct "URL" with ⟨e, he⟩ | ⟨s, hs⟩
          · simp [analyzeUrlModel, he, auditStatusOf]
          · simp [analyzeUrlModel, hs, auditStatusOf, formatAnalysisResult]
      · simp [analyzeUrlModel, auditStatusOf, formatAnalysisResult]
    · simp [analyzeUrlModel, auditStatusOf]
  · rcases tCacheHit with _ | ⟨c1, c2, c3, c4, c5, c6, c7, c8, c9⟩
    · rcases shape tPerf (parseText text).contentType "TEXT" with ⟨e, he⟩ | ⟨s, hs⟩
      · simp [analyzeTextModel, he, auditStatusOf]
      · simp [analyzeTextModel, hs, auditStatusOf, formatAnalysisResult]
    · simp [analyzeTextModel, auditStatusOf]
  · rcases cacheHit with _ | ⟨c1, c2, c3, c4, c5, c6, c7, c8, c9⟩
    · rcases dbLookup with e | (_ | ⟨hs⟩)
      · simp [analyzeUrlModel]
      · rcases parseOutcome with e2 | ct
        · simp [analyzeUrlModel]
        · rcases shape perf ct "URL" with ⟨e, he⟩ | ⟨s, hs⟩
          · simp [analyzeUrlModel, he]
          · simp [analyzeUrlModel, hs]
      · simp [analyzeUrlModel]
    · simp [analyzeUrlModel]
  · rcases tCacheHit with _ | ⟨c1, c2, c3, c4, c5, c6, c7, c8, c9⟩
    · rcases shape tPerf (parseText text).contentType "TEXT" with ⟨e, he⟩ | ⟨s, hs⟩
      · simp [analyzeTextModel, he]
      · simp [analyzeTextModel, hs]
    · simp [analyzeTextModel]

/-- Claim C4, amended: if persisting the Article (`upsert`) or the
AnalysisResult (`create`) fails after a successful parse and credibility
assessment, the error propagates to the caller — the call rejects with a
single FAILED audit row — rather than returning the computed result; only
cache writes and the audit write itself are best-effort. -/
theorem persistence_failure_propagates (env : UrlEnv)
    (hCache : env.cacheHit = none) (hDb : env.dbLookup = .ok none)
    (ct : ContentType) (hParse : env.parseOutcome = .ok ct) :
    (∀ e : String, env.perf.upsert = .error e →
      (analyzeUrlModel env).1 = .error e ∧
      (analyzeUrlModel env).2.map (·.status) = [.FAILED]) ∧
    (∀ e : String, env.perf.upsert = .ok () → env.perf.claimWrites = .ok () →
      (∀ cred : CredResult, env.perf.credibility = .ok cred →
        env.perf.resultCreate = .error e →
        (analyzeUrlModel env).1 = .error e ∧
        (analyzeUrlModel env).2.map (·.status) = [.FAILED])) := by
  obtain ⟨cacheHit, dbLookup, parseOutcome, perf, cacheSetOk, auditOk⟩ := env
  obtain ⟨upsert, ec, ml, vf, cw, cd, rc⟩ := perf
  simp only at hCache hDb hParse
  subst hCache hDb hParse
  constructor
  · intro e hu
    simp only at hu
    subst hu
    simp [analyzeUrlModel, performAnalysis]
  · intro e hu hcw cred hcd hrc
    simp only at hu hcw hcd hrc
    subst hu hcw hcd hrc
    simp [analyzeUrlModel, performAnalysis]

/-- A concrete environment in which the cache and database lookups miss,
parsing and the credibility assessment succeed, and the
`prisma.analysisResult.create` write throws. -/
def persistFailEnv : UrlEnv :=
  { cacheHit := none
    dbLookup := .ok none
    parseOutcome := .ok .NEWS
    perf :=
      { upsert := .ok ()
        extractedClaims := [⟨"claim", some "FACTUAL"⟩]
        mlPrediction := none
        verifications := [⟨0, some "VERIFIED", some (9 / 10), none, []⟩]
        claimWrites := .ok ()
        credibility := .ok ⟨80, 9 / 10⟩
        resultCreate := .error "analysisResult.create failed" }
    cacheSetOk := true
    auditOk := true }

/-- Claim C4, counterexample: in `persistFailEnv` the parse and the
credibility assessment succeed and only the persistence write throws, yet
`analyzeUrl` propagates the error instead of returning the computed result. -/
theorem analyzeUrl_rejects_on_persistence_failure :
    persistFailEnv.parseOutcome = .ok .NEWS ∧
    persistFailEnv.perf.credibility = .ok ⟨80, 9 / 10⟩ ∧
    persistFailEnv.perf.resultCreate = .error "analysisResult.create failed" ∧
    (analyzeUrlModel persistFailEnv).1 = .error "analysisResult.create failed" := by
  exact ⟨rfl, rfl, rfl, rfl⟩

/-- Claim C4, witness: the amended propagation theorem applied to
`persistFailEnv`. -/
theorem persistence_failure_propagates_witness :
    (analyzeUrlModel persistFailEnv).1 = .error "analysisResult.create failed" ∧
    (analyzeUrlModel persistFailEnv).2.map (·.status) = [.FAILED] :=
  (persistence_failure_propagates persistFailEnv rfl rfl .NEWS rfl).2
    "analysisResult.create failed" rfl rfl ⟨80, 9 / 10⟩ rfl rfl

set_option maxRecDepth 10000 in
/-- Claim C6, counterexample: two URLs that differ only in the letter case of
a tracking-parameter name are equivalent under the claim's relation, yet get
different digests — `searchParams.delete` matches names case-sensitively and
runs before the final lowercasing, so `UTM_SOURCE` survives normalization. -/
theorem urlHash_not_stable_under_case :
    urlEquivSpec "https://a.com/x?UTM_SOURCE=y" "https://a.com/x" ∧
    generateUrlHash "https://a.com/x?UTM_SOURCE=y" ≠ generateUrlHash "https://a.com/x" := by
  constructor
  · unfold urlEquivSpec
    decide
  · decide

/-- Claim C6, amended: the fingerprint is stable exactly across the code's
normal form — equal `normalizeUrl` outputs give equal digests — which covers
the claim's examples (dropping a lowercase tracking parameter such as
`utm_source`, and a trailing slash); stability across letter case fails when
the case change touches a tracking-parameter name (deletion is
case-sensitive and happens before lowercasing). -/
theorem generateUrlHash_stability :
    (∀ u1 u2 : String, normalizeUrl u1 = normalizeUrl u2 →
      generateUrlHash u1 = generateUrlHash u2) ∧
    generateUrlHash "https://a.com/x?utm_source=y" = generateUrlHash "https://a.com/x" ∧
    generateUrlHash "https://a.com/x/" = generateUrlHash "https://a.com/x" := by
  refine ⟨fun u1 u2 h => congrArg sha256String h, ?_, ?_⟩
  · exact congrArg sha256String (by decide)
  · exact congrArg sha256String (by decide)

/-- Claim C6, witness: the stability theorem applied to a pair of URLs that
normalize identically (same URL up to letter case outside tracking names). -/
theorem generateUrlHash_stability_witness :
    generateUrlHash "https://a.com/News/Story" = generateUrlHash "https://A.COM/news/story" :=
  generateUrlHash_stability.1 "https://a.com/News/Story" "https://A.COM/news/story" (by decide)

set_option maxRecDepth 10000 in
/-- Claim C7, counterexample: `parseText` hashes the text exactly as
received, before whitespace normalization — `"a b"` and `"a  b"` have the
same normalized content but different `urlHash`. -/
theorem parseText_hashes_raw_text :
    cleanText "a b" = cleanText "a  b" ∧
    (parseText "a b").content = (parseText "a  b").content ∧
    (parseText "a b").urlHash ≠ (parseText "a  b").urlHash := by
  refine ⟨by decide, by decide, by decide⟩

/-- Claim C7, amended: the raw-text fingerprint is the SHA-256 of the text
bytes as received (before whitespace normalization); the normalization is
applied only to the stored `content`, so equal hashes are guaranteed only for
byte-identical texts. -/
theorem parseText_hash_of_raw_bytes (text : String) :
    (parseText text).urlHash = sha256String text ∧
    (parseText text).content = cleanText text :=
  ⟨rfl, rfl⟩

end Clarix
